import Mathlib

/-!
# Verification of the PATHFINDER backend orchestration engine

A shallow embedding, in Lean 4, of the parts of the backend
(`backend/app/graph.py`, `backend/app/agents/commander.py`,
`backend/app/agents/critic.py`, `backend/app/api/routes.py`,
`backend/app/services/auth0.py`, `backend/app/dependencies.py`,
`backend/app/services/openweather.py`) that the specification's claims are
about, together with theorems settling each claim.

Python dictionaries that carry heterogeneous JSON-like data are embedded as
association lists `List (String × Val)` over a JSON-like value type `Val`;
external collaborators (the LLM, the catalogs, weather, JWKS, …) are oracles:
explicit arguments of type `Option _` / `Except Unit _` supplying each call's
outcome, exactly as the Python code observes them (`None` responses, raised
exceptions).
-/

set_option maxHeartbeats 1000000

namespace Pathfinder

/-- JSON-like values, the payloads of the Python dictionaries that make up a
LangGraph partial state update. -/
inductive Val where
  | null : Val
  | bool : Bool → Val
  | str : String → Val
  | num : ℚ → Val
  | arr : List Val → Val
  | dict : List (String × Val) → Val
deriving Repr

/-- Lookup in an association list embedding a Python dict (`d[k]` / `k in d`). -/
def alookup (d : List (String × Val)) (k : String) : Option Val :=
  match d with
  | [] => none
  | (k₀, v₀) :: rest => if k₀ = k then some v₀ else alookup rest k

/-- `d[k] = v`: overwrite the binding for `k` if present, else append it. -/
def aset (d : List (String × Val)) (k : String) (v : Val) : List (String × Val) :=
  match d with
  | [] => [(k, v)]
  | (k₀, v₀) :: rest => if k₀ = k then (k₀, v) :: rest else (k₀, v₀) :: aset rest k v

/-- Python `dict.update(upd)`: set every binding of `upd` in `d`, in order. -/
def aupdate (d : List (String × Val)) (upd : List (String × Val)) : List (String × Val) :=
  upd.foldl (fun acc kv => aset acc kv.1 kv.2) d

/-- Python `dict.setdefault(k, v)`: insert `(k, v)` only when `k` is absent. -/
def asetdefault (d : List (String × Val)) (k : String) (v : Val) : List (String × Val) :=
  if (alookup d k).isSome then d else d ++ [(k, v)]

/-- Apply `setdefault` for each binding of `kvs`, in order
(the fallback branch of `parallel_analysts_node`). -/
def asetdefaults (d : List (String × Val)) (kvs : List (String × Val)) : List (String × Val) :=
  kvs.foldl (fun acc kv => asetdefault acc kv.1 kv.2) d

/-- The keys of an embedded dict. -/
def akeys (d : List (String × Val)) : List String := d.map Prod.fst

/-! ## `_should_retry` — the conditional edge (`backend/app/graph.py`, lines 21–25)

```python
def _should_retry(state: PathfinderState) -> str:
    if (state.get("fast_fail") or state.get("veto")) and state.get("retry_count", 0) < 1:
        return "commander"
    return "synthesiser"
```

`state.get` on a missing key yields `None`, which is falsy, so the two flags
are embedded as `Option Bool` (read through `Option.getD false`) and the
counter as `Option Nat` (read through `Option.getD 0`). -/

/-- The conditional edge after ParallelAnalysts: retry once if the Critic
vetoed or fast-failed. -/
def _should_retry (fast_fail veto : Option Bool) (retry_count : Option Nat) : String :=
  if (fast_fail.getD false || veto.getD false) && decide (retry_count.getD 0 < 1) then
    "commander"
  else
    "synthesiser"

/-! ## `parallel_analysts_node` (`backend/app/graph.py`, lines 28–88)

The node builds one task per activated analyzer — in source order
`vibe_matcher`, `critic`, `cost_analyst`, each activated when `active_agents`
is empty or names it — and merges the results: a dict result is merged with
`dict.update`, an exception is replaced by that analyzer's well-shaped
fallback installed with `dict.setdefault`.  The outcome of each analyzer's
task (its returned partial-update dict, or the exception / timeout
`asyncio.gather(..., return_exceptions=True)` captured) is an oracle
`results : String → Except Unit (List (String × Val))`. -/

/-- The names of the analyst tasks built by `parallel_analysts_node`, in the
order the source appends them. -/
def task_names (active : List String) : List String :=
  (if active = [] ∨ "vibe_matcher" ∈ active then ["vibe_matcher"] else []) ++
  (if active = [] ∨ "critic" ∈ active then ["critic"] else []) ++
  (if active = [] ∨ "cost_analyst" ∈ active then ["cost_analyst"] else [])

/-- The graceful fallback partial installed (via `setdefault`) for an analyst
whose task raised or timed out (`graph.py` lines 75–84). -/
def analyst_fallback (name : String) : List (String × Val) :=
  if name = "vibe_matcher" then [("vibe_scores", Val.dict [])]
  else if name = "cost_analyst" then [("cost_profiles", Val.dict [])]
  else if name = "critic" then
    [("risk_flags", Val.dict []), ("fast_fail", Val.bool false),
     ("fast_fail_reason", Val.null), ("veto", Val.bool false),
     ("veto_reason", Val.null)]
  else []

/-- One iteration of the merge loop (`graph.py` lines 66–86): a dict result
is merged with `dict.update`, an exception is replaced by the analyst's
fallback installed with `dict.setdefault`. -/
def merge_step (results : String → Except Unit (List (String × Val)))
    (acc : List (String × Val)) (name : String) : List (String × Val) :=
  match results name with
  | .error _ => asetdefaults acc (analyst_fallback name)
  | .ok d => aupdate acc d

/-- `parallel_analysts_node`: fold the per-task outcomes, in task order, into
the merged partial state (`merged_state` in the source; `{}` when no task was
built). -/
def parallel_analysts_node (active : List String)
    (results : String → Except Unit (List (String × Val))) : List (String × Val) :=
  (task_names active).foldl (merge_step results) []

/-! ## `commander_node` (`backend/app/agents/commander.py`, lines 18–101)

The Commander calls the LLM (`generate_content`, which returns a string or
`None`), strips fenced-code markers, parses the JSON plan, reads the plan's
fields with `dict.get` defaults, performs a Snowflake Cortex context lookup,
and returns the five-key partial update.  Any exception in the `try` block —
a `None` response (`.startswith` on `None` raises), a JSON parse error, or a
failing context lookup — yields the safe fallback plan.

The LLM response is the oracle `resp : Option String`; JSON decoding of the
cleaned response is the oracle `parse : String → Option Plan` (a `Plan` being
the successfully decoded object with its four optional fields); the context
lookup is the oracle `memo : Except Unit (List String)`. -/

/-- The JSON execution plan decoded from the LLM response: the four fields
`commander_node` reads with `plan.get(...)`, each possibly absent. -/
structure Plan where
  parsed_intent : Option Val
  complexity_tier : Option String
  active_agents : Option (List String)
  agent_weights : Option (List (String × ℚ))
deriving Repr

/-- The Commander's five-key partial update (both return paths of
`commander_node` produce exactly these keys). -/
structure CmdrOut where
  parsed_intent : Val
  complexity_tier : String
  active_agents : List String
  agent_weights : List (String × ℚ)
  snowflake_context : List String
deriving Repr

/-- The safe fallback plan returned from the `except` branch of
`commander_node` (lines 86–93). -/
def commander_fallback : CmdrOut :=
  { parsed_intent := Val.dict []
    complexity_tier := "tier_1"
    active_agents := ["scout"]
    agent_weights := [("scout", 1)]
    snowflake_context := [] }

/-- The defensive markdown-fence cleanup applied to the LLM response before
`json.loads` (lines 68–73): drop a leading ` ```json ` and a trailing
` ``` `, then strip whitespace. -/
def clean_response (s : String) : String :=
  let s₁ := if s.startsWith "```json" then s.drop 7 else s
  let s₂ := if s₁.endsWith "```" then s₁.dropRight 3 else s₁
  s₂.trim

/-- `commander_node`: parse the raw prompt into an execution plan, falling
back to the safe plan on any failure.  Note that the returned partial update
carries no `retry_count`, `fast_fail` or `veto` key on either path. -/
def commander_node (resp : Option String) (parse : String → Option Plan)
    (memo : Except Unit (List String)) : CmdrOut :=
  match resp with
  | none => commander_fallback
  | some s =>
    match parse (clean_response s) with
    | none => commander_fallback
    | some plan =>
      match memo with
      | .error _ => commander_fallback
      | .ok ctx =>
        { parsed_intent := plan.parsed_intent.getD (Val.dict [])
          complexity_tier := plan.complexity_tier.getD "tier_2"
          active_agents := plan.active_agents.getD ["scout"]
          agent_weights := plan.agent_weights.getD [("scout", 1)]
          snowflake_context := ctx }

/-! ## `critic_node` (`backend/app/agents/critic.py`, lines 20–140)

The Critic takes the top three candidate venues and, for each, runs
`_analyze_venue` (weather + events fetch feeding an LLM call) under a 25 s
timeout.  `_analyze_venue` itself converts an empty/failed LLM response into
the neutral analysis, so a per-venue outcome is either the decoded analysis
or an exception captured by `asyncio.gather(..., return_exceptions=True)`
(e.g. the timeout): the oracle `outcome : Nat → Except Unit Analysis` gives
the result for the venue at each index of the top-3 list.

Venue identity in the merge loop: `_analyze_venue` and the exception branch
both compute `venue.get("venue_id", venue.get("name", "unknown"))`, while the
top-1 comparison target (line 129) is
`top_candidates[0].get("venue_id", top_candidates[0].get("name"))`, whose
default is `None`, not `"unknown"`. -/

/-- A candidate venue, restricted to the two keys `critic_node` reads for
identity; latitude/longitude/category only feed the `_analyze_venue` oracle. -/
structure Venue where
  venue_id : Option String
  name : Option String
deriving Repr, DecidableEq

/-- The per-venue analysis decoded from the Critic's LLM response (default
`{"risks": [], "fast_fail": False, "fast_fail_reason": None}` when the LLM
returned nothing — `_analyze_venue` lines 89 and 101). -/
structure Analysis where
  risks : List Val
  fast_fail : Bool
  fast_fail_reason : Option String
deriving Repr

/-- `venue.get("venue_id", venue.get("name", "unknown"))`. -/
def venue_key (v : Venue) : String :=
  v.venue_id.getD (v.name.getD "unknown")

/-- `top_candidates[0].get("venue_id", top_candidates[0].get("name"))` — the
identifier a fast-failing venue is compared against (may be `None`). -/
def top_target (v : Venue) : Option String :=
  v.venue_id.orElse (fun _ => v.name)

/-- The Critic's five-key partial update. -/
structure CriticOut where
  risk_flags : List (String × List Val)
  fast_fail : Bool
  fast_fail_reason : Option String
  veto : Bool
  veto_reason : Option String
deriving Repr

/-- Overwrite-or-append for the `risk_flags` dict. -/
def rset (d : List (String × List Val)) (k : String) (v : List Val) :
    List (String × List Val) :=
  match d with
  | [] => [(k, v)]
  | (k₀, v₀) :: rest => if k₀ = k then (k₀, v) :: rest else (k₀, v₀) :: rset rest k v

/-- Lookup in the `risk_flags` dict. -/
def rlookup (d : List (String × List Val)) (k : String) : Option (List Val) :=
  match d with
  | [] => none
  | (k₀, v₀) :: rest => if k₀ = k then some v₀ else rlookup rest k

/-- One iteration of the merge loop of `critic_node` (lines 114–132) over the
accumulator `(risk_flags, overall_fast_fail, fast_fail_reason)`: an exception
records an empty risk list; a decoded analysis records its risks and raises
the overall fast-fail only when the venue's identifier equals the top-1
comparison target. -/
def critic_step (target : Option String) (outcome : Nat → Except Unit Analysis)
    (acc : List (String × List Val) × Bool × Option String) (iv : Nat × Venue) :
    List (String × List Val) × Bool × Option String :=
  match outcome iv.1 with
  | .error _ => (rset acc.1 (venue_key iv.2) [], acc.2.1, acc.2.2)
  | .ok a =>
    let rf := rset acc.1 (venue_key iv.2) a.risks
    if a.fast_fail = true ∧ target = some (venue_key iv.2) then
      (rf, true, a.fast_fail_reason)
    else
      (rf, acc.2.1, acc.2.2)

/-- The merge loop of `critic_node` (lines 110–132), folded left over the
enumerated top-3 list. -/
def critic_fold (target : Option String) (outcome : Nat → Except Unit Analysis)
    (top : List Venue) : List (String × List Val) × Bool × Option String :=
  top.enum.foldl (critic_step target outcome) ([], false, none)

/-- `critic_node`: cross-reference the top three candidate venues with
real-world risks; veto only on a fast-fail attributed to the top-1 venue. -/
def critic_node (candidates : List Venue) (outcome : Nat → Except Unit Analysis) :
    CriticOut :=
  match candidates with
  | [] =>
    { risk_flags := [], fast_fail := false, fast_fail_reason := none
      veto := false, veto_reason := none }
  | c₀ :: _ =>
    let top := candidates.take 3
    let r := critic_fold (top_target c₀) outcome top
    { risk_flags := r.1
      fast_fail := r.2.1
      fast_fail_reason := r.2.2
      veto := r.2.1
      veto_reason := r.2.2 }

/-! ## The compiled graph and its retry loop (`backend/app/graph.py`, lines 91–125)

`build_graph` wires `commander → scout → parallel_analysts`, a conditional
edge `parallel_analysts → {commander, synthesiser}` decided by
`_should_retry`, and `synthesiser → END`.  To settle the retry-bound claim we
run this graph on a typed projection of the LangGraph channel state holding
every field the loop reads or writes (`routes.py` initialises all of them).
Merging a node's returned partial into the state overwrites exactly the keys
the node returned — `commander_node` returns its five plan keys,
`critic_node` its five risk keys — and leaves every other field unchanged. -/

/-- The channel-state fields read or written along the retry loop. -/
structure GState where
  parsed_intent : Val
  complexity_tier : String
  active_agents : List String
  agent_weights : List (String × ℚ)
  snowflake_context : List String
  candidate_venues : List Venue
  risk_flags : List (String × List Val)
  fast_fail : Bool
  fast_fail_reason : Option String
  veto : Bool
  veto_reason : Option String
  retry_count : Nat
deriving Repr

/-- The initial channel state built by the API routes
(`routes.py` lines 42–61 / 99–116): all flags clear, `retry_count = 0`. -/
def initial_state : GState :=
  { parsed_intent := Val.dict []
    complexity_tier := "tier_2"
    active_agents := []
    agent_weights := []
    snowflake_context := []
    candidate_venues := []
    risk_flags := []
    fast_fail := false
    fast_fail_reason := none
    veto := false
    veto_reason := none
    retry_count := 0 }

/-- Merge the Commander's five-key partial into the state: only the returned
keys change — in particular `fast_fail`, `veto`, their reasons and
`retry_count` are untouched, because `commander_node` returns no such keys. -/
def apply_commander (s : GState) (o : CmdrOut) : GState :=
  { s with
    parsed_intent := o.parsed_intent
    complexity_tier := o.complexity_tier
    active_agents := o.active_agents
    agent_weights := o.agent_weights
    snowflake_context := o.snowflake_context }

/-- Merge the Critic's five-key partial into the state. -/
def apply_critic (s : GState) (o : CriticOut) : GState :=
  { s with
    risk_flags := o.risk_flags
    fast_fail := o.fast_fail
    fast_fail_reason := o.fast_fail_reason
    veto := o.veto
    veto_reason := o.veto_reason }

/-- Modelled from the spec: the Scout node (`backend/app/agents/scout.py` is
not part of the provided sources; only `graph.py` and the tests reference
it).  Per the spec's data-model table, Scout writes only `candidate_venues`
(the merged, deduplicated, capped catalog results); the venues it finds are
the oracle `found`. -/
def scout_apply (s : GState) (found : List Venue) : GState :=
  { s with candidate_venues := found }

/-- The nodes of the compiled graph (plus a terminal marker for `END`). -/
inductive GNode where
  | commander
  | scout
  | parallel_analysts
  | synthesiser
  | finished
deriving Repr, DecidableEq

/-- The environment of one run: the outcome of every external call, held
fixed across retries (an adversarial-but-deterministic environment). -/
structure Oracles where
  resp : Option String
  parse : String → Option Plan
  memo : Except Unit (List String)
  scout_found : List Venue
  critic_outcome : Nat → Except Unit Analysis

/-- One step of the compiled graph: run the node, merge its partial, follow
its (possibly conditional) outgoing edge.  At `parallel_analysts` the Critic
runs exactly when the code builds its task (`active_agents` empty or naming
`"critic"`); the VibeMatcher/CostAnalyst partials touch none of the modelled
fields.  The conditional edge is the real `_should_retry`. -/
def graph_step (oc : Oracles) (s : GState) : GNode → GState × GNode
  | .commander => (apply_commander s (commander_node oc.resp oc.parse oc.memo), .scout)
  | .scout => (scout_apply s oc.scout_found, .parallel_analysts)
  | .parallel_analysts =>
    let s₂ :=
      if s.active_agents = [] ∨ "critic" ∈ s.active_agents then
        apply_critic s (critic_node s.candidate_venues oc.critic_outcome)
      else s
    (s₂,
      if _should_retry (some s₂.fast_fail) (some s₂.veto) (some s₂.retry_count)
          = "commander"
      then .commander else .synthesiser)
  | .synthesiser => (s, .finished)
  | .finished => (s, .finished)

/-- Run the graph for at most `fuel` node executions, recording the nodes
entered, in order. -/
def graph_run (oc : Oracles) : Nat → GState → GNode → GState × List GNode
  | 0, s, _ => (s, [])
  | fuel + 1, s, n =>
    if n = .finished then (s, [])
    else
      let sn := graph_step oc s n
      let r := graph_run oc fuel sn.1 sn.2
      (r.1, n :: r.2)

/-! ## The WebSocket session (`backend/app/api/routes.py`, lines 89–171)

After accepting the socket and receiving the request, `websocket_plan`
streams one `progress` event per completed node, then sends exactly one
terminal event — `result` when the pipeline stream finished, `error` from the
`TimeoutError` / `Exception` handlers otherwise — and closes the socket in
the `finally` block.  The run is abstracted by the list of nodes the stream
completed and the outcome of `asyncio.wait_for(_run_pipeline(), 120.0)`. -/

/-- The actions the WebSocket handler performs on the socket, in order. -/
inductive WsAction where
  | progress : String → String → WsAction
  | result : List Val → WsAction
  | error : String → WsAction
  | close : WsAction
deriving Repr

/-- `NODE_LABELS` (`routes.py` lines 22–30). -/
def NODE_LABELS : List (String × String) :=
  [("commander", "Parsing your request..."),
   ("scout", "Discovering venues..."),
   ("parallel_analysts", "Analysing vibes, cost & risks..."),
   ("vibe_matcher", "Analysing vibes..."),
   ("cost_analyst", "Calculating costs..."),
   ("critic", "Running risk assessment..."),
   ("synthesiser", "Ranking results...")]

/-- `NODE_LABELS.get(node_name, node_name)`. -/
def node_label (n : String) : String :=
  match NODE_LABELS.find? (fun p => p.1 = n) with
  | some p => p.2
  | none => n

/-- How the 120 s–bounded pipeline stream ended: normal completion (with the
accumulated `ranked_results`), the timeout, or an exception. -/
inductive RunOutcome where
  | completed : List Val → RunOutcome
  | timedOut : RunOutcome
  | failed : RunOutcome
deriving Repr

/-- The terminal event the handler sends for each outcome
(`routes.py` lines 134–156). -/
def terminal_event : RunOutcome → WsAction
  | .completed ranked => .result ranked
  | .timedOut => .error "Pipeline timed out — please try a simpler query."
  | .failed => .error "An internal error occurred. Please try again."

/-- The sequence of socket actions of one `/ws/plan` session that started the
pipeline: a `progress` event per completed node, one terminal event, then the
`finally`-block close. -/
def websocket_plan (completed : List String) (o : RunOutcome) : List WsAction :=
  completed.map (fun n => WsAction.progress n (node_label n)) ++
    [terminal_event o] ++ [WsAction.close]

/-- Is an action a terminal event (`result` or `error`)? -/
def is_terminal : WsAction → Bool
  | .result _ => true
  | .error _ => true
  | _ => false

/-! ## Bearer-token verification (`backend/app/services/auth0.py`, lines 42–84,
and `backend/app/dependencies.py`, lines 19–31)

`verify_jwt` first short-circuits to empty claims when `AUTH0_DOMAIN` or
`AUTH0_AUDIENCE` is unset; otherwise it fetches the JWKS (an `HTTPException`
503 on failure, uncaught by the `except JWTError` handler), reads the
unverified header (a `JWTError` on a malformed token → 401), looks for a key
whose `kid` matches (401 when none does), and decodes+validates the token
(signature, audience, issuer, expiry — any `JWTError` → 401).

The oracles: `jwks` is the fetch outcome, `header_kid` the header-parse
outcome (the token's `kid`, possibly absent), `decoded` the outcome of
`jwt.decode`. -/

/-- A JWKS entry, restricted to the `kid` the matching loop compares. -/
structure JwksKey where
  kid : Option String
deriving Repr, DecidableEq

/-- The outcome of the auth dependency: decoded claims, or an HTTP error
response with its status code. -/
inductive AuthOutcome where
  | ok : List (String × Val) → AuthOutcome
  | httpError : Nat → String → AuthOutcome
deriving Repr

/-- The Auth0 configuration; Python truthiness makes the empty string and an
unset variable equivalent, so both are embedded as `""`. -/
structure Auth0Settings where
  AUTH0_DOMAIN : String
  AUTH0_AUDIENCE : String
deriving Repr, DecidableEq

/-- `verify_jwt`: verify an Auth0 JWT and return the decoded claims. -/
def verify_jwt (settings : Auth0Settings) (jwks : Except Unit (List JwksKey))
    (header_kid : Except Unit (Option String))
    (decoded : Except Unit (List (String × Val))) : AuthOutcome :=
  if settings.AUTH0_DOMAIN = "" ∨ settings.AUTH0_AUDIENCE = "" then
    .ok []
  else
    match jwks with
    | .error _ => .httpError 503 "Auth service unavailable"
    | .ok keys =>
      match header_kid with
      | .error _ => .httpError 401 "Invalid or expired token"
      | .ok kid =>
        match keys.find? (fun k => k.kid == kid) with
        | none => .httpError 401 "Unable to find matching JWT key"
        | some _ =>
          match decoded with
          | .error _ => .httpError 401 "Invalid or expired token"
          | .ok payload => .ok payload

/-- `get_optional_user`: empty claims when no Bearer credentials are present,
otherwise `verify_jwt` on the supplied token. -/
def get_optional_user (settings : Auth0Settings) (credentials : Option String)
    (jwks : Except Unit (List JwksKey)) (header_kid : Except Unit (Option String))
    (decoded : Except Unit (List (String × Val))) : AuthOutcome :=
  match credentials with
  | none => .ok []
  | some _ => verify_jwt settings jwks header_kid decoded

/-! ## The weather adapter (`backend/app/services/openweather.py`, lines 15–72)

`get_weather` returns `None` when the API key is unset and from the
`except` branch on any fetch/HTTP/JSON failure; otherwise it compacts the
forecast entries (with `dict.get` defaults) and flags heavy precipitation. -/

/-- One raw entry of the OpenWeather `list` array, restricted to the fields
the adapter reads (each read with a `dict.get` default). -/
structure RawForecastEntry where
  dt_txt : Option String
  weather_main : Option String
  weather_description : Option String
  temp : Option ℚ
  feels_like : Option ℚ
  pop : Option ℚ
deriving Repr

/-- One compacted 3-hour period as built by the adapter (lines 44–51). -/
structure ForecastPeriod where
  time : String
  condition : String
  description : String
  temp_c : Option ℚ
  feels_like_c : Option ℚ
  pop : ℚ
deriving Repr

/-- Compact one raw entry (lines 41–51). -/
def to_period (e : RawForecastEntry) : ForecastPeriod :=
  { time := e.dt_txt.getD ""
    condition := e.weather_main.getD "Unknown"
    description := e.weather_description.getD ""
    temp_c := e.temp
    feels_like_c := e.feels_like
    pop := e.pop.getD 0 }

/-- The precipitation predicate of lines 54–58: probability ≥ 0.6 or a wet
condition. -/
def heavy_period (p : ForecastPeriod) : Bool :=
  decide ((3 : ℚ) / 5 ≤ p.pop) ||
    decide (p.condition ∈ ["Rain", "Drizzle", "Thunderstorm", "Snow"])

/-- The adapter's result record. -/
structure WeatherResult where
  forecast_24h : List ForecastPeriod
  heavy_precipitation_likely : Bool
  summary : String
deriving Repr

/-- `get_weather`: fetch the 5-day/3-hour forecast and extract the next 24
hours; `none` when the key is unset or the fetch fails. -/
def get_weather (api_key : Option String)
    (fetch : Except Unit (List RawForecastEntry)) : Option WeatherResult :=
  match api_key with
  | none => none
  | some k =>
    if k = "" then none
    else
      match fetch with
      | .error _ => none
      | .ok entries =>
        let periods := entries.map to_period
        let heavy_rain := periods.any heavy_period
        some
          { forecast_24h := periods
            heavy_precipitation_likely := heavy_rain
            summary :=
              if heavy_rain then
                "Heavy precipitation expected in the next 24 hours."
              else
                "No significant precipitation expected." }

/-! ## Concrete run inputs used by counterexamples and by the retry-loop run

`json.loads` on a concrete LLM response produces a concrete plan; each
`..._parse` oracle below is the decoding a concrete response would yield. -/

/-- A decoded plan whose `active_agents` omits `"scout"` — the decoding of an
LLM response such as a JSON object with
`"active_agents": ["critic"]` (nothing in `commander_node` re-inserts
`"scout"` on the success path). -/
def plan_without_scout : Plan :=
  { parsed_intent := none
    complexity_tier := some "tier_2"
    active_agents := some ["critic"]
    agent_weights := some [("critic", 1)] }

/-- Decoding oracle returning `plan_without_scout` for every response. -/
def parse_without_scout : String → Option Plan := fun _ => some plan_without_scout

/-- Two candidate venues sharing one `venue_id` (duplicate identifiers). -/
def dup_id_candidates : List Venue :=
  [{ venue_id := some "a", name := some "North Patio" },
   { venue_id := some "a", name := some "South Patio" }]

/-- Critic per-venue outcomes: the top-1 venue's analysis does *not*
fast-fail, the second venue's does. -/
def dup_id_outcome : Nat → Except Unit Analysis :=
  fun i =>
    if i = 1 then .ok { risks := [], fast_fail := true, fast_fail_reason := some "storm" }
    else .ok { risks := [], fast_fail := false, fast_fail_reason := none }

/-- Critic per-venue outcomes in which only the top-1 venue's analysis
fast-fails. -/
def top1_veto_outcome : Nat → Except Unit Analysis :=
  fun i =>
    if i = 0 then
      .ok { risks := [], fast_fail := true, fast_fail_reason := some "flooded" }
    else
      .ok { risks := [], fast_fail := false, fast_fail_reason := none }

/-- A decoded plan activating the Critic — the decoding of an LLM response
whose `active_agents` is `["scout", "critic"]`. -/
def plan_with_critic : Plan :=
  { parsed_intent := none
    complexity_tier := some "tier_2"
    active_agents := some ["scout", "critic"]
    agent_weights := some [("scout", 1), ("critic", 1)] }

/-- The environment of the runaway-retry run: the LLM always returns the same
Critic-activating plan, Scout finds one venue, and the Critic's analysis of
the top-1 venue fast-fails on every pass. -/
def veto_oracles : Oracles :=
  { resp := some "plan"
    parse := fun _ => some plan_with_critic
    memo := .ok []
    scout_found := [{ venue_id := some "v1", name := some "High Park" }]
    critic_outcome := fun _ =>
      .ok { risks := [], fast_fail := true, fast_fail_reason := some "heavy rain" } }

/-! # Theorems -/

/-! ## Association-list lemmas (shared helpers) -/

theorem alookup_append (d₁ d₂ : List (String × Val)) (k : String) :
    alookup (d₁ ++ d₂) k = ((alookup d₁ k).orElse fun _ => alookup d₂ k) := by
  induction d₁ with
  | nil => simp [alookup]
  | cons hd tl ih =>
    obtain ⟨k₀, v₀⟩ := hd
    by_cases h : k₀ = k <;> simp [alookup, h, ih]

theorem alookup_aset (d : List (String × Val)) (k : String) (v : Val) (k' : String) :
    alookup (aset d k v) k' = if k = k' then some v else alookup d k' := by
  induction d with
  | nil => simp [aset, alookup]
  | cons hd tl ih =>
    obtain ⟨k₀, v₀⟩ := hd
    by_cases h : k₀ = k
    · subst h
      by_cases h' : k₀ = k' <;> simp [aset, alookup, h']
    · by_cases h' : k₀ = k'
      · subst h'
        have hk : ¬k = k₀ := fun he => h he.symm
        simp [aset, alookup, h, hk]
      · simp [aset, alookup, h, h', ih]

theorem alookup_aupdate_of_not_mem (d upd : List (String × Val)) (k : String)
    (h : k ∉ akeys upd) : alookup (aupdate d upd) k = alookup d k := by
  induction upd generalizing d with
  | nil => rfl
  | cons hd tl ih =>
    obtain ⟨k₀, v₀⟩ := hd
    simp only [akeys, List.map_cons, List.mem_cons, not_or] at h
    show alookup (aupdate (aset d k₀ v₀) tl) k = alookup d k
    rw [ih (aset d k₀ v₀) (by simpa [akeys] using h.2), alookup_aset]
    rw [if_neg (fun he => h.1 he.symm)]

theorem alookup_asetdefault_of_ne (d : List (String × Val)) (k₀ : String) (v₀ : Val)
    (k : String) (h : k₀ ≠ k) : alookup (asetdefault d k₀ v₀) k = alookup d k := by
  unfold asetdefault
  split
  · rfl
  · rw [alookup_append]
    simp [alookup, h]

theorem alookup_asetdefault_insert (d : List (String × Val)) (k₀ : String) (v₀ : Val)
    (h : alookup d k₀ = none) : alookup (asetdefault d k₀ v₀) k₀ = some v₀ := by
  unfold asetdefault
  rw [if_neg (by simp [h])]
  rw [alookup_append, h]
  simp [alookup]

theorem alookup_asetdefaults_of_not_mem (d kvs : List (String × Val)) (k : String)
    (h : k ∉ akeys kvs) : alookup (asetdefaults d kvs) k = alookup d k := by
  induction kvs generalizing d with
  | nil => rfl
  | cons hd tl ih =>
    obtain ⟨k₀, v₀⟩ := hd
    simp only [akeys, List.map_cons, List.mem_cons, not_or] at h
    show alookup (asetdefaults (asetdefault d k₀ v₀) tl) k = alookup d k
    rw [ih _ (by simpa [akeys] using h.2)]
    exact alookup_asetdefault_of_ne d k₀ v₀ k (fun he => h.1 he.symm)

theorem alookup_asetdefaults_mem (kvs : List (String × Val))
    (hnd : (akeys kvs).Nodup) :
    ∀ d : List (String × Val), (∀ k' ∈ akeys kvs, alookup d k' = none) →
      ∀ k v, (k, v) ∈ kvs → alookup (asetdefaults d kvs) k = some v := by
  induction kvs with
  | nil => intro d _ k v hm; cases hm
  | cons hd tl ih =>
    obtain ⟨k₀, v₀⟩ := hd
    simp only [akeys, List.map_cons, List.nodup_cons] at hnd
    intro d hnone k v hm
    have hd₀ : alookup d k₀ = none := hnone k₀ (List.mem_cons_self _ _)
    show alookup (asetdefaults (asetdefault d k₀ v₀) tl) k = some v
    rcases List.mem_cons.mp hm with he | hm'
    · obtain ⟨hk, hv⟩ := Prod.ext_iff.mp he
      subst hk; subst hv
      rw [alookup_asetdefaults_of_not_mem _ _ _ (by simpa [akeys] using hnd.1)]
      exact alookup_asetdefault_insert d k v hd₀
    · refine ih (by simpa [akeys] using hnd.2) _ ?_ k v hm'
      intro k' hk'
      rw [alookup_asetdefault_of_ne d k₀ v₀ k'
        (fun he => hnd.1 (he ▸ hk'))]
      exact hnone k' (List.mem_cons_of_mem _ hk')

theorem merge_step_preserves (results : String → Except Unit (List (String × Val)))
    (acc : List (String × Val)) (name : String) (k : String)
    (hok : ∀ d, results name = Except.ok d → k ∉ akeys d)
    (hfb : k ∉ akeys (analyst_fallback name)) :
    alookup (merge_step results acc name) k = alookup acc k := by
  unfold merge_step
  cases h : results name with
  | error e => exact alookup_asetdefaults_of_not_mem _ _ _ hfb
  | ok d => exact alookup_aupdate_of_not_mem _ _ _ (hok d h)

theorem fold_merge_preserves (results : String → Except Unit (List (String × Val)))
    (L : List String) (k : String)
    (h : ∀ n ∈ L, (∀ d, results n = Except.ok d → k ∉ akeys d) ∧
      k ∉ akeys (analyst_fallback n)) :
    ∀ acc, alookup (L.foldl (merge_step results) acc) k = alookup acc k := by
  induction L with
  | nil => intro acc; rfl
  | cons hd tl ih =>
    intro acc
    show alookup (tl.foldl (merge_step results) (merge_step results acc hd)) k = _
    rw [ih (fun n hn => h n (List.mem_cons_of_mem hd hn)) _]
    exact merge_step_preserves results acc hd k (h hd (List.mem_cons_self hd tl)).1
      (h hd (List.mem_cons_self hd tl)).2

/-! ## C3 — the conditional edge's truth table -/

/-- C3: the conditional edge after ParallelAnalysts routes to Commander
exactly when (`fast_fail` or `veto` is set) and `retry_count < 1`, and to
Synthesiser in every other case — the complete truth table of
`_should_retry` over the three state fields. -/
theorem should_retry_truth_table (f v : Option Bool) (r : Option Nat) :
    (_should_retry f v r = "commander" ↔
      ((f.getD false = true ∨ v.getD false = true) ∧ r.getD 0 < 1)) ∧
    (_should_retry f v r = "synthesiser" ↔
      ¬((f.getD false = true ∨ v.getD false = true) ∧ r.getD 0 < 1)) := by
  by_cases hf : f.getD false = true <;> by_cases hv : v.getD false = true <;>
    by_cases hr : r.getD 0 < 1 <;>
      simp_all [_should_retry]

/-! ## C10 — no analyzer activated ⇒ empty partial -/

/-- C10: when `active_agents` is non-empty but names none of the three
analyzers, `parallel_analysts_node` returns the completely empty partial
update, and merging it into any state leaves the state unchanged. -/
theorem parallel_analysts_inactive_empty (active : List String)
    (results : String → Except Unit (List (String × Val))) (s : List (String × Val))
    (h₀ : active ≠ []) (h₁ : "vibe_matcher" ∉ active) (h₂ : "critic" ∉ active)
    (h₃ : "cost_analyst" ∉ active) :
    parallel_analysts_node active results = [] ∧
    aupdate s (parallel_analysts_node active results) = s := by
  have ht : task_names active = [] := by
    unfold task_names
    rw [if_neg (by simp [h₀, h₁]), if_neg (by simp [h₀, h₂]), if_neg (by simp [h₀, h₃])]
    rfl
  refine ⟨by simp [parallel_analysts_node, ht], ?_⟩
  simp [parallel_analysts_node, ht, aupdate]

/-- Witness for C10: `active_agents = ["scout"]` builds no analyst task and
the merged partial is empty. -/
theorem parallel_analysts_inactive_empty_witness :
    parallel_analysts_node ["scout"] (fun _ => Except.ok [("vibe_scores", Val.dict [])]) = [] ∧
    aupdate [("fast_fail", Val.bool true)]
        (parallel_analysts_node ["scout"] (fun _ => Except.ok [("vibe_scores", Val.dict [])])) =
      [("fast_fail", Val.bool true)] :=
  parallel_analysts_inactive_empty ["scout"] _ _ (by decide) (by decide) (by decide) (by decide)

/-! ## C6 — the Commander's safe fallback -/

/-- C6: on a `None` LLM response, or on a JSON-parse failure of the cleaned
response, `commander_node` returns exactly the safe fallback plan
(`tier_1`, `["scout"]`, `scout ↦ 1.0`, empty intent, empty context). -/
theorem commander_fallback_on_failure :
    (∀ (parse : String → Option Plan) (memo : Except Unit (List String)),
      commander_node none parse memo = commander_fallback) ∧
    (∀ (s : String) (parse : String → Option Plan) (memo : Except Unit (List String)),
      parse (clean_response s) = none → commander_node (some s) parse memo = commander_fallback) ∧
    commander_fallback =
      { parsed_intent := Val.dict []
        complexity_tier := "tier_1"
        active_agents := ["scout"]
        agent_weights := [("scout", 1)]
        snowflake_context := [] } := by
  refine ⟨fun _ _ => rfl, fun s parse memo h => ?_, rfl⟩
  simp [commander_node, h]

/-- Witness for C6: a response the parser rejects yields the fallback plan. -/
theorem commander_fallback_on_failure_witness :
    commander_node (some "this is not json at all") (fun _ => none) (Except.ok []) =
      commander_fallback :=
  commander_fallback_on_failure.2.1 "this is not json at all" (fun _ => none) (Except.ok []) rfl

/-! ## C2 — `scout ∈ active_agents` after Commander -/

/-- Counterexample to C2: on the success path the Commander adopts the LLM
plan's `active_agents` verbatim, so a decoded plan of `["critic"]` (e.g. the
LLM response `{"active_agents": ["critic"], ...}` — see `plan_without_scout`)
leaves `"scout"` out of `active_agents`. -/
theorem commander_can_drop_scout :
    "scout" ∉ (commander_node (some "plan") parse_without_scout (Except.ok [])).active_agents := by
  decide

/-- C2 (amended): after the Commander, `scout ∈ active_agents` on every
failure/fallback path, and on the success path whenever the decoded plan's
`active_agents` (defaulting to `["scout"]` when absent) contains `"scout"`;
the code does not enforce the invariant when the LLM omits `"scout"`. -/
theorem commander_scout_membership (resp : Option String) (parse : String → Option Plan)
    (memo : Except Unit (List String))
    (h : resp = none ∨ (∀ s, resp = some s → parse (clean_response s) = none) ∨
      (∃ e, memo = Except.error e) ∨
      (∀ s plan, resp = some s → parse (clean_response s) = some plan →
        "scout" ∈ plan.active_agents.getD ["scout"])) :
    "scout" ∈ (commander_node resp parse memo).active_agents := by
  cases resp with
  | none => simp [commander_node, commander_fallback]
  | some s =>
    cases hp : parse (clean_response s) with
    | none => simp [commander_node, hp, commander_fallback]
    | some plan =>
      cases hm : memo with
      | error e => simp [commander_node, hp, commander_fallback]
      | ok ctx =>
        rcases h with h | h | ⟨e, he⟩ | h
        · cases h
        · exact absurd hp (by simp [h s rfl])
        · rw [hm] at he; simp at he
        · have hs := h s plan rfl hp
          simp only [commander_node, hp]
          simpa using hs

/-- Witness for C2 (amended): the fallback path keeps `"scout"` active. -/
theorem commander_scout_membership_witness :
    "scout" ∈ (commander_node none (fun _ => none) (Except.ok [])).active_agents :=
  commander_scout_membership none (fun _ => none) (Except.ok []) (Or.inl rfl)

/-! ## C4 — task activation and empty-but-well-shaped fallbacks -/

theorem mem_task_names (active : List String) (name : String) :
    name ∈ task_names active ↔
      (name ∈ ["vibe_matcher", "critic", "cost_analyst"] ∧
        (name ∈ active ∨ active = [])) := by
  unfold task_names
  by_cases h₁ : active = [] ∨ "vibe_matcher" ∈ active <;>
    by_cases h₂ : active = [] ∨ "critic" ∈ active <;>
      by_cases h₃ : active = [] ∨ "cost_analyst" ∈ active <;>
        simp only [h₁, h₂, h₃, if_true, if_false, if_pos, if_neg, not_false_iff,
          List.append_nil, List.nil_append, List.mem_append, List.mem_cons,
          List.mem_singleton, List.not_mem_nil, or_false, false_or] <;>
          aesop

theorem analyst_fallback_keys_disjoint :
    ∀ n ∈ ["vibe_matcher", "critic", "cost_analyst"],
      ∀ m ∈ ["vibe_matcher", "critic", "cost_analyst"], n ≠ m →
        ∀ k ∈ akeys (analyst_fallback n), k ∉ akeys (analyst_fallback m) := by
  decide

theorem analyst_fallback_keys_nodup :
    ∀ n ∈ ["vibe_matcher", "critic", "cost_analyst"],
      (akeys (analyst_fallback n)).Nodup := by
  decide

/-- If the analyst `name` sits between task prefixes/suffixes whose members
are other analysts, and `name`'s task failed, then every binding of `name`'s
fallback survives into the folded merge. -/
theorem fallback_installed (results : String → Except Unit (List (String × Val)))
    (name : String) (l1 l2 : List String) (e : Unit)
    (hname : name ∈ ["vibe_matcher", "critic", "cost_analyst"])
    (he : results name = Except.error e)
    (h1 : ∀ n ∈ l1, n ≠ name ∧ n ∈ ["vibe_matcher", "critic", "cost_analyst"])
    (h2 : ∀ n ∈ l2, n ≠ name ∧ n ∈ ["vibe_matcher", "critic", "cost_analyst"])
    (hdisj : ∀ n d k, n ≠ name → results n = Except.ok d →
      k ∈ akeys (analyst_fallback name) → k ∉ akeys d) :
    ∀ k v, (k, v) ∈ analyst_fallback name →
      alookup ((l1 ++ name :: l2).foldl (merge_step results) []) k = some v := by
  intro k v hkv
  have hk : k ∈ akeys (analyst_fallback name) := List.mem_map_of_mem Prod.fst hkv
  rw [List.foldl_append, List.foldl_cons]
  rw [fold_merge_preserves results l2 k ?_ _]
  · have haccnone : ∀ k' ∈ akeys (analyst_fallback name),
        alookup (l1.foldl (merge_step results) []) k' = none := by
      intro k' hk'
      rw [fold_merge_preserves results l1 k' ?_ []]
      · rfl
      · intro n hn
        obtain ⟨hne, hmem⟩ := h1 n hn
        refine ⟨fun d hd => hdisj n d k' hne hd hk', ?_⟩
        exact analyst_fallback_keys_disjoint name hname n hmem
          (fun heq => hne heq.symm) k' hk'
    simp only [merge_step, he]
    exact alookup_asetdefaults_mem _ (analyst_fallback_keys_nodup name hname) _
      haccnone k v hkv
  · intro n hn
    obtain ⟨hne, hmem⟩ := h2 n hn
    refine ⟨fun d hd => hdisj n d k hne hd hk, ?_⟩
    exact analyst_fallback_keys_disjoint name hname n hmem
      (fun heq => hne heq.symm) k hk

/-- C4: in the ParallelAnalysts stage an analyzer's task is built exactly
when the analyzer is named in `active_agents` or `active_agents` is empty,
and a task that raised or timed out is replaced in the merged partial by that
analyzer's empty-but-well-shaped contribution: `vibe_scores = {}` for the
VibeMatcher, `cost_profiles = {}` for the CostAnalyst, and `risk_flags = {}`,
`fast_fail = false`, `fast_fail_reason = None`, `veto = false`,
`veto_reason = None` for the Critic.  (Each task's dict result may only carry
that analyzer's own fields — the disjointness hypotheses `hdv`/`hdc`/`hdk`;
each task is handed its own copy of the state snapshot, which is inherent to
this by-value embedding.) -/
theorem parallel_analysts_activation_and_fallback (active : List String)
    (results : String → Except Unit (List (String × Val))) :
    (∀ name, name ∈ task_names active ↔
      (name ∈ ["vibe_matcher", "critic", "cost_analyst"] ∧
        (name ∈ active ∨ active = []))) ∧
    (∀ e, (active = [] ∨ "vibe_matcher" ∈ active) →
      results "vibe_matcher" = Except.error e →
      (∀ n d, n ≠ "vibe_matcher" → results n = Except.ok d →
        "vibe_scores" ∉ akeys d) →
      alookup (parallel_analysts_node active results) "vibe_scores" =
        some (Val.dict [])) ∧
    (∀ e, (active = [] ∨ "critic" ∈ active) →
      results "critic" = Except.error e →
      (∀ n d k, n ≠ "critic" → results n = Except.ok d →
        k ∈ akeys (analyst_fallback "critic") → k ∉ akeys d) →
      (alookup (parallel_analysts_node active results) "risk_flags" =
          some (Val.dict []) ∧
        alookup (parallel_analysts_node active results) "fast_fail" =
          some (Val.bool false) ∧
        alookup (parallel_analysts_node active results) "fast_fail_reason" =
          some Val.null ∧
        alookup (parallel_analysts_node active results) "veto" =
          some (Val.bool false) ∧
        alookup (parallel_analysts_node active results) "veto_reason" =
          some Val.null)) ∧
    (∀ e, (active = [] ∨ "cost_analyst" ∈ active) →
      results "cost_analyst" = Except.error e →
      (∀ n d, n ≠ "cost_analyst" → results n = Except.ok d →
        "cost_profiles" ∉ akeys d) →
      alookup (parallel_analysts_node active results) "cost_profiles" =
        some (Val.dict [])) := by
  have hVmem : ∀ n ∈ (if active = [] ∨ "vibe_matcher" ∈ active
      then ["vibe_matcher"] else []), n = "vibe_matcher" := by
    intro n hn; split at hn <;> simp_all
  have hCmem : ∀ n ∈ (if active = [] ∨ "critic" ∈ active
      then ["critic"] else []), n = "critic" := by
    intro n hn; split at hn <;> simp_all
  have hKmem : ∀ n ∈ (if active = [] ∨ "cost_analyst" ∈ active
      then ["cost_analyst"] else []), n = "cost_analyst" := by
    intro n hn; split at hn <;> simp_all
  refine ⟨mem_task_names active, fun e hact he hdisj => ?_,
    fun e hact he hdisj => ?_, fun e hact he hdisj => ?_⟩
  · -- vibe_matcher fails: l1 = [], l2 = critic-ite ++ cost-ite
    have htn : task_names active =
        [] ++ "vibe_matcher" ::
          ((if active = [] ∨ "critic" ∈ active then ["critic"] else []) ++
            (if active = [] ∨ "cost_analyst" ∈ active then ["cost_analyst"] else [])) := by
      unfold task_names
      rw [if_pos hact]
      simp [List.append_assoc]
    unfold parallel_analysts_node
    rw [htn]
    refine fallback_installed results "vibe_matcher" _ _ e (by simp) he
      (by simp) ?_ (fun n d k hn hd hk => by
        have hkk : k = "vibe_scores" := by simpa [analyst_fallback, akeys] using hk
        subst hkk
        exact hdisj n d hn hd) "vibe_scores" (Val.dict []) (by simp [analyst_fallback])
    intro n hn
    rcases List.mem_append.mp hn with h | h
    · have := hCmem n h; subst this; exact ⟨by decide, by simp⟩
    · have := hKmem n h; subst this; exact ⟨by decide, by simp⟩
  · -- critic fails: l1 = vibe-ite, l2 = cost-ite
    have htn : task_names active =
        (if active = [] ∨ "vibe_matcher" ∈ active then ["vibe_matcher"] else []) ++
          "critic" ::
            (if active = [] ∨ "cost_analyst" ∈ active then ["cost_analyst"] else []) := by
      unfold task_names
      rw [if_pos hact]
      simp [List.append_assoc]
    have hmain := fallback_installed results "critic" _ _ e (by simp) he
      (fun n hn => by have := hVmem n hn; subst this; exact ⟨by decide, by simp⟩)
      (fun n hn => by have := hKmem n hn; subst this; exact ⟨by decide, by simp⟩)
      hdisj
    unfold parallel_analysts_node
    rw [htn]
    exact ⟨hmain "risk_flags" (Val.dict []) (by simp [analyst_fallback]),
      hmain "fast_fail" (Val.bool false) (by simp [analyst_fallback]),
      hmain "fast_fail_reason" Val.null (by simp [analyst_fallback]),
      hmain "veto" (Val.bool false) (by simp [analyst_fallback]),
      hmain "veto_reason" Val.null (by simp [analyst_fallback])⟩
  · -- cost_analyst fails: l1 = vibe-ite ++ critic-ite, l2 = []
    have htn : task_names active =
        ((if active = [] ∨ "vibe_matcher" ∈ active then ["vibe_matcher"] else []) ++
          (if active = [] ∨ "critic" ∈ active then ["critic"] else [])) ++
          "cost_analyst" :: [] := by
      unfold task_names
      rw [if_pos hact]
    unfold parallel_analysts_node
    rw [htn]
    refine fallback_installed results "cost_analyst" _ _ e (by simp) he ?_
      (by simp) (fun n d k hn hd hk => by
        have hkk : k = "cost_profiles" := by simpa [analyst_fallback, akeys] using hk
        subst hkk
        exact hdisj n d hn hd) "cost_profiles" (Val.dict []) (by simp [analyst_fallback])
    intro n hn
    rcases List.mem_append.mp hn with h | h
    · have := hVmem n h; subst this; exact ⟨by decide, by simp⟩
    · have := hCmem n h; subst this; exact ⟨by decide, by simp⟩

/-- Witness for C4: with a degenerate (empty) plan every task is built, and
with every analyst failing each fallback key is present and well-shaped. -/
theorem parallel_analysts_activation_and_fallback_witness :
    ("critic" ∈ task_names [] ↔
      ("critic" ∈ ["vibe_matcher", "critic", "cost_analyst"] ∧
        ("critic" ∈ ([] : List String) ∨ ([] : List String) = []))) ∧
    alookup (parallel_analysts_node [] (fun _ => Except.error ())) "vibe_scores" =
      some (Val.dict []) ∧
    alookup (parallel_analysts_node [] (fun _ => Except.error ())) "fast_fail" =
      some (Val.bool false) ∧
    alookup (parallel_analysts_node [] (fun _ => Except.error ())) "cost_profiles" =
      some (Val.dict []) :=
  ⟨(parallel_analysts_activation_and_fallback [] (fun _ => Except.error ())).1 "critic",
   (parallel_analysts_activation_and_fallback [] (fun _ => Except.error ())).2.1 ()
     (Or.inl rfl) rfl (fun n d _ hd => by cases hd),
   ((parallel_analysts_activation_and_fallback [] (fun _ => Except.error ())).2.2.1 ()
     (Or.inl rfl) rfl (fun n d k _ hd => by cases hd)).2.1,
   (parallel_analysts_activation_and_fallback [] (fun _ => Except.error ())).2.2.2 ()
     (Or.inl rfl) rfl (fun n d _ hd => by cases hd)⟩

/-! ## C5 — the Critic's fast-fail rule -/

theorem rlookup_rset (d : List (String × List Val)) (k : String) (v : List Val)
    (k' : String) : rlookup (rset d k v) k' = if k = k' then some v else rlookup d k' := by
  induction d with
  | nil => simp [rset, rlookup]
  | cons hd tl ih =>
    obtain ⟨k₀, v₀⟩ := hd
    by_cases h : k₀ = k
    · subst h
      by_cases h' : k₀ = k' <;> simp [rset, rlookup, h']
    · by_cases h' : k₀ = k'
      · subst h'
        have hk : ¬k = k₀ := fun he => h he.symm
        simp [rset, rlookup, h, hk]
      · simp [rset, rlookup, h, h', ih]

theorem critic_step_rf (target : Option String) (outcome : Nat → Except Unit Analysis)
    (acc : List (String × List Val) × Bool × Option String) (iv : Nat × Venue) :
    (critic_step target outcome acc iv).1 =
      rset acc.1 (venue_key iv.2)
        (match outcome iv.1 with | .error _ => [] | .ok a => a.risks) := by
  unfold critic_step
  cases outcome iv.1 with
  | error e => rfl
  | ok a => by_cases h : a.fast_fail = true ∧ target = some (venue_key iv.2) <;> simp [h]

theorem critic_foldl_rf_preserve (target : Option String)
    (outcome : Nat → Except Unit Analysis) (l : List (Nat × Venue)) (k : String)
    (h : ∀ iv ∈ l, venue_key iv.2 ≠ k) :
    ∀ acc, rlookup (l.foldl (critic_step target outcome) acc).1 k = rlookup acc.1 k := by
  induction l with
  | nil => intro acc; rfl
  | cons hd tl ih =>
    intro acc
    rw [List.foldl_cons, ih (fun iv hm => h iv (List.mem_cons_of_mem hd hm))]
    rw [critic_step_rf, rlookup_rset, if_neg (h hd (List.mem_cons_self hd tl))]

theorem critic_foldl_rf (target : Option String) (outcome : Nat → Except Unit Analysis)
    (l : List (Nat × Venue)) (hnd : (l.map (fun iv => venue_key iv.2)).Nodup) :
    ∀ acc, ∀ iv ∈ l,
      rlookup (l.foldl (critic_step target outcome) acc).1 (venue_key iv.2) =
        some (match outcome iv.1 with | .error _ => [] | .ok a => a.risks) := by
  induction l with
  | nil => intro acc iv hm; cases hm
  | cons hd tl ih =>
    simp only [List.map_cons, List.nodup_cons] at hnd
    intro acc iv hm
    rcases List.mem_cons.mp hm with he | hm'
    · subst he
      rw [List.foldl_cons]
      rw [critic_foldl_rf_preserve target outcome tl _ (fun jv hj hkey => hnd.1
        (by rw [← hkey]; exact List.mem_map_of_mem (fun x => venue_key x.2) hj))]
      rw [critic_step_rf, rlookup_rset, if_pos rfl]
    · exact ih hnd.2 _ iv hm'

theorem critic_step_ff (target : Option String) (outcome : Nat → Except Unit Analysis)
    (acc : List (String × List Val) × Bool × Option String) (iv : Nat × Venue) :
    ((critic_step target outcome acc iv).2.1 = true ↔
      (acc.2.1 = true ∨ ∃ a, outcome iv.1 = Except.ok a ∧ a.fast_fail = true ∧
        target = some (venue_key iv.2))) := by
  cases h : outcome iv.1 with
  | error e => simp [critic_step, h]
  | ok a =>
    by_cases hc : a.fast_fail = true ∧ target = some (venue_key iv.2)
    · simp [critic_step, h, hc.1, hc.2]
    · simp [critic_step, h, hc]

theorem critic_foldl_ff (target : Option String) (outcome : Nat → Except Unit Analysis)
    (l : List (Nat × Venue)) :
    ∀ acc, ((l.foldl (critic_step target outcome) acc).2.1 = true ↔
      (acc.2.1 = true ∨ ∃ iv ∈ l, ∃ a, outcome iv.1 = Except.ok a ∧
        a.fast_fail = true ∧ target = some (venue_key iv.2))) := by
  induction l with
  | nil => intro acc; simp
  | cons hd tl ih =>
    intro acc
    rw [List.foldl_cons, ih, critic_step_ff]
    constructor
    · rintro ((hacc | hhd) | ⟨iv, hm, ha⟩)
      · exact Or.inl hacc
      · exact Or.inr ⟨hd, List.mem_cons_self hd tl, hhd⟩
      · exact Or.inr ⟨iv, List.mem_cons_of_mem hd hm, ha⟩
    · rintro (hacc | ⟨iv, hm, ha⟩)
      · exact Or.inl (Or.inl hacc)
      · rcases List.mem_cons.mp hm with he | hm'
        · exact Or.inl (Or.inr (he ▸ ha))
        · exact Or.inr ⟨iv, hm', ha⟩

/-- Counterexample to C5: two analyzed candidates carry the same `venue_id`
`"a"`; the top-1 venue's analysis does not fast-fail but the second venue's
does, and — because the merge loop attributes fast-fails by identifier
equality with the top-1 — the run-level `fast_fail` still becomes true. -/
theorem critic_vetoes_on_duplicate_id :
    (critic_node dup_id_candidates dup_id_outcome).fast_fail = true := by decide

/-- C5 (amended): the Critic's returned partial always satisfies
`veto = fast_fail` and `veto_reason = fast_fail_reason`; the run-level
`fast_fail` is true exactly when some analyzed (top-3) candidate's decoded
analysis fast-fails *and* that candidate's identifier
(`venue_id`, else `name`, else `"unknown"`) equals the top-1 comparison
target (`venue_id`, else `name`); when the analyzed candidates' identifiers
are pairwise distinct and the top-1 has a `venue_id` or `name`, this is
exactly "the top-1 candidate's analysis fast-fails", so a fast-fail of a
non-top-1 candidate leaves the run-level flag false while every analyzed
candidate's risks are recorded in `risk_flags` under its identifier. -/
theorem critic_fast_fail_rule (candidates : List Venue)
    (outcome : Nat → Except Unit Analysis) :
    ((critic_node candidates outcome).veto = (critic_node candidates outcome).fast_fail ∧
      (critic_node candidates outcome).veto_reason =
        (critic_node candidates outcome).fast_fail_reason) ∧
    (∀ c₀ rest, candidates = c₀ :: rest →
      ((critic_node candidates outcome).fast_fail = true ↔
        ∃ iv ∈ (candidates.take 3).enum, ∃ a, outcome iv.1 = Except.ok a ∧
          a.fast_fail = true ∧ top_target c₀ = some (venue_key iv.2))) ∧
    (∀ c₀ rest, candidates = c₀ :: rest →
      ((candidates.take 3).map venue_key).Nodup →
      (c₀.venue_id ≠ none ∨ c₀.name ≠ none) →
      ((critic_node candidates outcome).fast_fail = true ↔
        ∃ a, outcome 0 = Except.ok a ∧ a.fast_fail = true)) ∧
    (∀ c₀ rest, candidates = c₀ :: rest →
      ((candidates.take 3).map venue_key).Nodup →
      ∀ iv ∈ (candidates.take 3).enum,
        rlookup (critic_node candidates outcome).risk_flags (venue_key iv.2) =
          some (match outcome iv.1 with | .error _ => [] | .ok a => a.risks)) := by
  refine ⟨?_, fun c₀ rest hc => ?_, fun c₀ rest hc hnd hid => ?_,
    fun c₀ rest hc hnd iv hm => ?_⟩
  · cases candidates with
    | nil => exact ⟨rfl, rfl⟩
    | cons c₀ rest => exact ⟨rfl, rfl⟩
  · subst hc
    show (critic_fold (top_target c₀) outcome ((c₀ :: rest).take 3)).2.1 = true ↔ _
    unfold critic_fold
    rw [critic_foldl_ff]
    simp
  · subst hc
    have htc : top_target c₀ = some (venue_key c₀) := by
      unfold top_target venue_key
      rcases hid with hid | hid <;>
        cases hv : c₀.venue_id <;> cases hn : c₀.name <;> simp_all [Option.orElse]
    have hchar : (critic_node (c₀ :: rest) outcome).fast_fail = true ↔
        ∃ iv ∈ ((c₀ :: rest).take 3).enum, ∃ a, outcome iv.1 = Except.ok a ∧
          a.fast_fail = true ∧ top_target c₀ = some (venue_key iv.2) := by
      show (critic_fold (top_target c₀) outcome ((c₀ :: rest).take 3)).2.1 = true ↔ _
      unfold critic_fold
      rw [critic_foldl_ff]
      simp
    rw [hchar]
    have htake : (c₀ :: rest).take 3 = c₀ :: rest.take 2 := rfl
    constructor
    · rintro ⟨iv, hm, a, hok, hff, ht⟩
      have hget : ((c₀ :: rest).take 3)[iv.1]? = some iv.2 :=
        List.mem_enum_iff_getElem?.mp hm
      have hmem : iv.2 ∈ (c₀ :: rest).take 3 := by
        obtain ⟨hlt, he⟩ := List.getElem?_eq_some_iff.mp hget
        exact he ▸ List.getElem_mem hlt
      have hkey : venue_key iv.2 = venue_key c₀ := by
        rw [htc] at ht
        exact (Option.some.injEq .. ▸ ht).symm
      have hc₀mem : c₀ ∈ (c₀ :: rest).take 3 := by
        rw [htake]; exact List.mem_cons_self _ _
      have hiv2 : iv.2 = c₀ := List.inj_on_of_nodup_map hnd hmem hc₀mem hkey
      have hget0 : ((c₀ :: rest).take 3)[0]? = some c₀ := by
        simp [htake]
      have hlen : iv.1 < ((c₀ :: rest).take 3).length :=
        (List.getElem?_eq_some_iff.mp hget).1
      have hi0 : iv.1 = 0 := by
        refine List.getElem?_inj hlen (List.Nodup.of_map venue_key hnd) ?_
        rw [hget, hget0, hiv2]
      exact ⟨a, hi0 ▸ hok, hff⟩
    · rintro ⟨a, hok, hff⟩
      refine ⟨(0, c₀), ?_, a, hok, hff, htc⟩
      apply List.mem_enum_iff_getElem?.mpr
      simp [htake]
  · subst hc
    show rlookup (critic_fold (top_target c₀) outcome ((c₀ :: rest).take 3)).1
        (venue_key iv.2) = _
    unfold critic_fold
    refine critic_foldl_rf (top_target c₀) outcome _ ?_ _ iv hm
    have hsnd : ((c₀ :: rest).take 3).enum.map (fun jv => venue_key jv.2) =
        ((c₀ :: rest).take 3).map venue_key := by
      rw [show (fun jv : Nat × Venue => venue_key jv.2) = venue_key ∘ Prod.snd from rfl,
        ← List.map_map, List.enum_map_snd]
    rw [hsnd]
    exact hnd

/-- Witness for C5 (amended): distinct identifiers and a keyed top-1 reduce
the run-level fast-fail to the top-1 candidate's own analysis. -/
theorem critic_fast_fail_rule_witness :
    (critic_node [{ venue_id := some "a", name := none },
        { venue_id := some "b", name := none }] top1_veto_outcome).fast_fail = true ↔
      ∃ a, top1_veto_outcome 0 = Except.ok a ∧ a.fast_fail = true :=
  (critic_fast_fail_rule _ top1_veto_outcome).2.2.1 { venue_id := some "a", name := none }
    [{ venue_id := some "b", name := none }] rfl (by decide) (by decide)

/-! ## C1 — the retry loop is *not* bounded by `retry_count` -/

/-- C1 (code bug): `commander_node` returns no `fast_fail`/`veto`/
`retry_count` keys on either path, so it neither clears the incoming veto nor
increments `retry_count` (contradicting the repository's own tests
`test_retry_count_increments_on_veto` / `test_veto_is_cleared_on_commander_run`
and `_should_retry`'s "Cap at 1" docstring).  Running the compiled graph from
the API's initial state with a Critic that vetoes the top-1 candidate on
every pass: within 12 node executions the Commander is entered four times
(the claim allows at most two), the Synthesiser is never reached, and
`retry_count` is still 0 with the veto still standing. -/
theorem retry_loop_unbounded :
    ((graph_run veto_oracles 12 initial_state GNode.commander).2.countP
        (fun n => decide (n = GNode.commander)) = 4) ∧
    ((graph_run veto_oracles 12 initial_state GNode.commander).2.countP
        (fun n => decide (n = GNode.synthesiser)) = 0) ∧
    (graph_run veto_oracles 12 initial_state GNode.commander).1.retry_count = 0 ∧
    (graph_run veto_oracles 12 initial_state GNode.commander).1.veto = true := by
  decide

/-! ## C9 — the weather adapter -/

/-- C9: the adapter's `heavy_precipitation_likely` is true iff some 3-hour
period has precipitation probability ≥ 0.6 or a condition in
Rain/Drizzle/Thunderstorm/Snow; a missing API key or a failed fetch yields
`none` rather than an error. -/
theorem get_weather_spec :
    (∀ fetch, get_weather none fetch = none) ∧
    (∀ (k : String) (e : Unit), get_weather (some k) (Except.error e) = none) ∧
    (∀ (k : String) (entries : List RawForecastEntry), k ≠ "" →
      ∃ w, get_weather (some k) (Except.ok entries) = some w ∧
        w.forecast_24h = entries.map to_period ∧
        (w.heavy_precipitation_likely = true ↔
          ∃ p ∈ entries.map to_period,
            (3 : ℚ) / 5 ≤ p.pop ∨
              p.condition ∈ ["Rain", "Drizzle", "Thunderstorm", "Snow"])) := by
  refine ⟨fun _ => rfl, fun k e => ?_, fun k entries hk => ?_⟩
  · by_cases h : k = "" <;> simp [get_weather, h]
  · refine ⟨{ forecast_24h := entries.map to_period
              heavy_precipitation_likely := (entries.map to_period).any heavy_period
              summary :=
                if (entries.map to_period).any heavy_period then
                  "Heavy precipitation expected in the next 24 hours."
                else
                  "No significant precipitation expected." }, ?_, rfl, ?_⟩
    · simp [get_weather, hk]
    · simp [List.any_eq_true, heavy_period]

/-- Witness for C9: a key but an empty forecast window — result present,
heavy-precipitation flag characterised over the (empty) period list. -/
theorem get_weather_spec_witness :
    ∃ w, get_weather (some "key") (Except.ok []) = some w ∧
      w.forecast_24h = List.map to_period [] ∧
      (w.heavy_precipitation_likely = true ↔
        ∃ p ∈ List.map to_period [],
          (3 : ℚ) / 5 ≤ p.pop ∨
            p.condition ∈ ["Rain", "Drizzle", "Thunderstorm", "Snow"]) :=
  get_weather_spec.2.2 "key" [] (by decide)

/-! ## C8 — optional bearer authentication -/

/-- Counterexample to C8: with `AUTH0_DOMAIN` unset (empty), `verify_jwt`
skips verification, so a supplied token whose decoding *fails* still yields
empty claims instead of HTTP 401. -/
theorem auth_unconfigured_accepts_invalid :
    get_optional_user { AUTH0_DOMAIN := "", AUTH0_AUDIENCE := "aud" } (some "bad-token")
      (Except.ok []) (Except.ok none) (Except.error ()) = AuthOutcome.ok [] := rfl

/-- C8 (amended): a request without a Bearer token gets empty claims; when
`AUTH0_DOMAIN` and `AUTH0_AUDIENCE` are both configured and the JWKS fetch
succeeds, an invalid supplied token — malformed header, no JWKS key matching
its `kid`, or failing signature/audience/issuer/expiry validation — is
rejected with HTTP 401.  (When either setting is empty, verification is
skipped and even an invalid token yields empty claims; a failed JWKS fetch
yields 503, not 401.) -/
theorem auth_absent_or_invalid (settings : Auth0Settings) :
    (∀ jwks hk dec, get_optional_user settings none jwks hk dec = AuthOutcome.ok []) ∧
    (settings.AUTH0_DOMAIN ≠ "" → settings.AUTH0_AUDIENCE ≠ "" →
      (∀ (tok : String) (keys : List JwksKey) dec,
        get_optional_user settings (some tok) (Except.ok keys) (Except.error ()) dec =
          AuthOutcome.httpError 401 "Invalid or expired token") ∧
      (∀ (tok : String) (keys : List JwksKey) (kid : Option String) dec,
        keys.find? (fun kk => kk.kid == kid) = none →
        get_optional_user settings (some tok) (Except.ok keys) (Except.ok kid) dec =
          AuthOutcome.httpError 401 "Unable to find matching JWT key") ∧
      (∀ (tok : String) (keys : List JwksKey) (kid : Option String) (key : JwksKey),
        keys.find? (fun kk => kk.kid == kid) = some key →
        get_optional_user settings (some tok) (Except.ok keys) (Except.ok kid)
            (Except.error ()) =
          AuthOutcome.httpError 401 "Invalid or expired token")) := by
  refine ⟨fun _ _ _ => rfl, fun hd ha => ⟨fun tok keys dec => ?_,
    fun tok keys kid dec hfind => ?_, fun tok keys kid key hfind => ?_⟩⟩
  · simp [get_optional_user, verify_jwt, hd, ha]
  · simp [get_optional_user, verify_jwt, hd, ha, hfind]
  · simp [get_optional_user, verify_jwt, hd, ha, hfind]

/-- Witness for C8 (amended): configured settings, empty JWKS (no matching
key) ⇒ 401. -/
theorem auth_absent_or_invalid_witness :
    get_optional_user { AUTH0_DOMAIN := "dom", AUTH0_AUDIENCE := "aud" } (some "tok")
      (Except.ok []) (Except.ok none) (Except.ok []) =
      AuthOutcome.httpError 401 "Unable to find matching JWT key" :=
  ((auth_absent_or_invalid { AUTH0_DOMAIN := "dom", AUTH0_AUDIENCE := "aud" }).2
    (by decide) (by decide)).2.1 "tok" [] none (Except.ok []) rfl

/-! ## C7 — exactly one terminal WebSocket event -/

/-- C7: a `/ws/plan` session that started the pipeline performs some progress
events, then exactly one terminal event — `result` iff the run completed
normally, `error` iff it raised or hit the 120 s timeout — and then closes
the socket. -/
theorem websocket_terminal_event (completed : List String) (o : RunOutcome) :
    (websocket_plan completed o).countP (fun a => is_terminal a) = 1 ∧
    websocket_plan completed o =
      completed.map (fun n => WsAction.progress n (node_label n)) ++
        [terminal_event o, WsAction.close] ∧
    (∀ a ∈ completed.map (fun n => WsAction.progress n (node_label n)),
      is_terminal a = false) ∧
    (∀ r, o = RunOutcome.completed r → terminal_event o = WsAction.result r) ∧
    ((o = RunOutcome.timedOut ∨ o = RunOutcome.failed) →
      ∃ m, terminal_event o = WsAction.error m) := by
  refine ⟨?_, ?_, ?_, ?_, ?_⟩
  · unfold websocket_plan
    rw [List.countP_append, List.countP_append]
    rw [List.countP_eq_zero.mpr ?_]
    · cases o <;> rfl
    · intro a ha
      obtain ⟨n, _, rfl⟩ := List.mem_map.mp ha
      simp [is_terminal]
  · simp [websocket_plan]
  · intro a ha
    obtain ⟨n, _, rfl⟩ := List.mem_map.mp ha
    rfl
  · intro r h; subst h; rfl
  · intro h; rcases h with h | h <;> subst h <;> exact ⟨_, rfl⟩

/-- Witness for C7: a completed run over two streamed nodes sends exactly one
terminal event, of type `result`. -/
theorem websocket_terminal_event_witness :
    (websocket_plan ["commander", "scout"] (RunOutcome.completed [])).countP
        (fun a => is_terminal a) = 1 ∧
    terminal_event (RunOutcome.completed []) = WsAction.result [] :=
  ⟨(websocket_terminal_event ["commander", "scout"] (RunOutcome.completed [])).1,
   (websocket_terminal_event ["commander", "scout"] (RunOutcome.completed [])).2.2.2.1 [] rfl⟩

end Pathfinder
